import Mathlib

/-!
Verification of the fewsats-mcp server core (`src/fewsats_mcp/server.py`):
the response normalizer `_handle_response`, the tool registry `list_tools`,
and the dispatcher `call_tool`.  The external payment client (`Fewsats`) is
out of scope per the spec and is modelled as an opaque collaborator: a record
of operations each returning either a raw response or raising (an `Except`).
-/

namespace FewsatsMCP

/-- JSON values, the data exchanged with the dispatcher: Python dict/list/str/
int/bool/None values as produced by `response.json()` and supplied as tool
arguments.  (Float bodies are out of scope of every claim.) -/
inductive Json where
  | null : Json
  | bool : Bool → Json
  | num : Int → Json
  | str : String → Json
  | arr : List Json → Json
  | obj : List (String × Json) → Json

/-- A tool-argument mapping (`arguments: Dict[str, Any]`), as the ordered
key/value association of a Python dict. -/
abbrev Arguments := List (String × Json)

/-- Python `arguments[k]` lookup yielding `none` where the dict access would
raise `KeyError`. -/
def getArg (arguments : Arguments) (k : String) : Option Json :=
  List.lookup k arguments

/-- The message carried by a Python `KeyError` for key `k`: `str(KeyError(k))`
is the repr of the key, i.e. the key wrapped in single quotes. -/
def keyErrorMsg (k : String) : String := "\x27" ++ k ++ "\x27"

/-- Indentation: `n` space characters. -/
def spaces (n : Nat) : String := String.mk (List.replicate n ' ')

/-- JSON string-escaping of one character as in Python `json.dumps`. -/
def escapeChar (c : Char) : String :=
  if c.toNat = 34 then "\\\""
  else if c.toNat = 92 then "\\\\"
  else if c = '\n' then "\\n"
  else if c = '\t' then "\\t"
  else if c = '\r' then "\\r"
  else String.singleton c

/-- JSON string literal rendering as in Python `json.dumps`. -/
def escapeString (s : String) : String :=
  "\"" ++ String.join (s.data.map escapeChar) ++ "\""

mutual
/-- `json.dumps(v, indent=2)` at nesting level `lvl`: two-space indentation,
`",\n"` item separator, `": "` key separator, empty containers on one line. -/
def dumpJson (lvl : Nat) : Json → String
  | .null => "null"
  | .bool true => "true"
  | .bool false => "false"
  | .num n => toString n
  | .str s => escapeString s
  | .arr [] => "[]"
  | .arr (x :: xs) =>
      "[\n" ++ dumpItems (lvl + 1) (x :: xs) ++ "\n" ++ spaces (2 * lvl) ++ "]"
  | .obj [] => "\x7b\x7d"
  | .obj (f :: fs) =>
      "\x7b\n" ++ dumpFields (lvl + 1) (f :: fs) ++ "\n" ++ spaces (2 * lvl) ++ "\x7d"

/-- Array items of `json.dumps(·, indent=2)`, each on its own indented line. -/
def dumpItems (lvl : Nat) : List Json → String
  | [] => ""
  | [x] => spaces (2 * lvl) ++ dumpJson lvl x
  | x :: y :: xs =>
      spaces (2 * lvl) ++ dumpJson lvl x ++ ",\n" ++ dumpItems lvl (y :: xs)

/-- Object fields of `json.dumps(·, indent=2)`, each on its own indented line. -/
def dumpFields (lvl : Nat) : List (String × Json) → String
  | [] => ""
  | [(k, v)] => spaces (2 * lvl) ++ escapeString k ++ ": " ++ dumpJson lvl v
  | (k, v) :: g :: fs =>
      spaces (2 * lvl) ++ escapeString k ++ ": " ++ dumpJson lvl v ++ ",\n" ++
        dumpFields lvl (g :: fs)
end

/-- A normalized payload: either parsed JSON or the raw body text. -/
inductive Payload where
  | json : Json → Payload
  | text : String → Payload

/-- A raw backend response (`httpx`-style): a status code, the outcome of
`response.json()` (`some parsed` when the body parses as JSON, `none` when the
parse raises), and the raw body text `response.text`. -/
structure RawResponse where
  status_code : Int
  json_body : Option Json
  text : String

/-- `FewsatsMCPServer._handle_response` (server.py lines 39-44):
`try: return response.status_code, response.json()
 except: return response.status_code, response.text`. -/
def handle_response (r : RawResponse) : Int × Payload :=
  match r.json_body with
  | some j => (r.status_code, Payload.json j)
  | none => (r.status_code, Payload.text r.text)

/-- The opaque backend collaborator (`self.fewsats`): each operation either
returns a raw response or raises, modelled as `Except` with the stringified
exception message (`str(e)`). -/
structure Backend where
  balance : Except String RawResponse
  payment_methods : Except String RawResponse
  billing_info : Except String RawResponse
  pay_offer : Json → Json → Except String RawResponse
  payment_info : Json → Except String RawResponse
  pay_x402_offer : Json → Json → Except String RawResponse

/-- One backend invocation as issued by the dispatcher, recording which
operation was called and with which arguments in which order. -/
inductive BackendCall where
  | balance : BackendCall
  | payment_methods : BackendCall
  | billing_info : BackendCall
  | pay_offer : Json → Json → BackendCall
  | payment_info : Json → BackendCall
  | pay_x402_offer : Json → Json → BackendCall

/-- One `TextContent(type="text", text=...)` item of the response. -/
structure TextContent where
  type : String
  text : String

/-- `TextContent(type="text", text=s)`. -/
def textContent (s : String) : TextContent := ⟨"text", s⟩

/-- The body of `call_tool`'s `try` block (server.py lines 184-205): the
if/elif routing chain.  It yields the normalized result (or the raised
exception's message) together with the list of backend operations invoked:
argument extraction happens in source order before the backend call, so a
`KeyError` leaves the trace empty, while a raising backend call still appears
in the trace. -/
def route (b : Backend) (name : String) (arguments : Arguments) :
    Except String (Int × Payload) × List BackendCall :=
  if name = "balance" then
    (Except.map handle_response b.balance, [BackendCall.balance])
  else if name = "payment_methods" then
    (Except.map handle_response b.payment_methods, [BackendCall.payment_methods])
  else if name = "billing_info" then
    (Except.map handle_response b.billing_info, [BackendCall.billing_info])
  else if name = "pay_offer" then
    match getArg arguments "offer_id" with
    | none => (Except.error (keyErrorMsg "offer_id"), [])
    | some offer_id =>
      match getArg arguments "l402_offer" with
      | none => (Except.error (keyErrorMsg "l402_offer"), [])
      | some l402_offer =>
        (Except.map handle_response (b.pay_offer offer_id l402_offer),
         [BackendCall.pay_offer offer_id l402_offer])
  else if name = "payment_info" then
    match getArg arguments "pid" with
    | none => (Except.error (keyErrorMsg "pid"), [])
    | some pid =>
      (Except.map handle_response (b.payment_info pid), [BackendCall.payment_info pid])
  else if name = "create_x402_payment_header" then
    match getArg arguments "chain" with
    | none => (Except.error (keyErrorMsg "chain"), [])
    | some chain =>
      match getArg arguments "x402_payload" with
      | none => (Except.error (keyErrorMsg "x402_payload"), [])
      | some x402_payload =>
        (Except.map handle_response (b.pay_x402_offer x402_payload chain),
         [BackendCall.pay_x402_offer x402_payload chain])
  else
    (Except.error ("Unknown tool: " ++ name), [])

/-- The success result `(status, payload)` as serialized by `json.dumps`: a
Python 2-tuple renders as a JSON array. -/
def resultJson (result : Int × Payload) : Json :=
  Json.arr [Json.num result.fst,
            match result.snd with
            | Payload.json j => j
            | Payload.text t => Json.str t]

/-- The `error_result` dict built in `call_tool`'s `except` block:
`\x7b"error": str(e), "tool": name, "arguments": arguments\x7d`. -/
def errorEnvelope (e name : String) (arguments : Arguments) : Json :=
  Json.obj [("error", Json.str e), ("tool", Json.str name),
            ("arguments", Json.obj arguments)]

/-- The dispatcher `call_tool` (server.py lines 182-217): route the call, then
on success return `[TextContent(type="text", text=json.dumps(result, indent=2,
default=str))]`, and on any exception return the serialized `error_result`
envelope.  The second component is the trace of backend calls issued. -/
def call_tool (b : Backend) (name : String) (arguments : Arguments) :
    List TextContent × List BackendCall :=
  match route b name arguments with
  | (Except.ok result, calls) =>
      ([textContent (dumpJson 0 (resultJson result))], calls)
  | (Except.error e, calls) =>
      ([textContent (dumpJson 0 (errorEnvelope e name arguments))], calls)

/-- One MCP `Tool` descriptor: name, description and JSON-Schema input
specification (the schema is declarative data, kept as a `Json` value). -/
structure Tool where
  name : String
  description : String
  inputSchema : Json

/-- The `list_tools` handler (server.py lines 49-180): the fixed ordered
catalog of the six tool descriptors, transcribed literally from the source.
The embedding is a pure constant: evaluating it has no side effects and
cannot fail. -/
def list_tools : List Tool :=
  [⟨"balance",
    "Retrieve the balance of the user\x27s wallet. You will rarely need to call this unless instructed by the user, or to troubleshoot payment issues. Fewsats will automatically add balance when needed.",
    Json.obj [("type", Json.str "object"), ("properties", Json.obj [])]⟩,
   ⟨"payment_methods",
    "Retrieve the user\x27s payment methods. You will rarely need to call this unless instructed by the user, or to troubleshoot payment issues. Fewsats will automatically select the best payment method.",
    Json.obj [("type", Json.str "object"), ("properties", Json.obj [])]⟩,
   ⟨"billing_info",
    "Retrieve the user\x27s billing information. Returns billing details including name, address, and other relevant information. This information can also be used as shipping address for purchases.",
    Json.obj [("type", Json.str "object"), ("properties", Json.obj [])]⟩,
   ⟨"pay_offer",
    "Pays an offer_id from the l402_offers. If payment status is \x27needs_review\x27 inform the user he will have to approve it at app.fewsats.com",
    Json.obj
      [("type", Json.str "object"),
       ("properties", Json.obj
         [("offer_id", Json.obj
            [("type", Json.str "string"),
             ("description", Json.str "String identifier for the offer to pay")]),
          ("l402_offer", Json.obj
            [("type", Json.str "object"),
             ("description", Json.str "L402 offer object with structure containing offers array, payment_context_token, payment_request_url, and version"),
             ("properties", Json.obj
               [("offers", Json.obj
                  [("type", Json.str "array"),
                   ("items", Json.obj
                     [("type", Json.str "object"),
                      ("properties", Json.obj
                        [("id", Json.obj [("type", Json.str "string"), ("description", Json.str "String identifier for the offer")]),
                         ("amount", Json.obj [("type", Json.str "number"), ("description", Json.str "Numeric cost value")]),
                         ("currency", Json.obj [("type", Json.str "string"), ("description", Json.str "Currency code")]),
                         ("description", Json.obj [("type", Json.str "string"), ("description", Json.str "Text description")]),
                         ("title", Json.obj [("type", Json.str "string"), ("description", Json.str "Title of the package")])]),
                      ("required", Json.arr [Json.str "id", Json.str "amount", Json.str "currency"])])]),
                ("payment_context_token", Json.obj [("type", Json.str "string"), ("description", Json.str "Payment context token")]),
                ("payment_request_url", Json.obj [("type", Json.str "string"), ("description", Json.str "Payment URL")]),
                ("version", Json.obj [("type", Json.str "string"), ("description", Json.str "API version")])]),
             ("required", Json.arr
               [Json.str "offers", Json.str "payment_context_token",
                Json.str "payment_request_url", Json.str "version"])])]),
       ("required", Json.arr [Json.str "offer_id", Json.str "l402_offer"])]⟩,
   ⟨"payment_info",
    "Retrieve the details of a payment. If payment status is \x27needs_review\x27 inform the user he will have to approve it at app.fewsats.com",
    Json.obj
      [("type", Json.str "object"),
       ("properties", Json.obj
         [("pid", Json.obj
            [("type", Json.str "string"),
             ("description", Json.str "Payment ID to retrieve information for")])]),
       ("required", Json.arr [Json.str "pid"])]⟩,
   ⟨"create_x402_payment_header",
    "Creates a payment header for the X402 protocol. Returns a dict with the payment_header field that must be set in X-PAYMENT header in a x402 http request.",
    Json.obj
      [("type", Json.str "object"),
       ("properties", Json.obj
         [("chain", Json.obj
            [("type", Json.str "string"),
             ("enum", Json.arr [Json.str "base-sepolia", Json.str "base"]),
             ("description", Json.str "Blockchain network to use for payment")]),
          ("x402_payload", Json.obj
            [("type", Json.str "object"),
             ("description", Json.str "X402 payload object with accepts array and protocol details"),
             ("properties", Json.obj
               [("accepts", Json.obj
                  [("type", Json.str "array"),
                   ("items", Json.obj
                     [("type", Json.str "object"),
                      ("properties", Json.obj
                        [("asset", Json.obj [("type", Json.str "string"), ("description", Json.str "Asset contract address")]),
                         ("description", Json.obj [("type", Json.str "string"), ("description", Json.str "Payment description")]),
                         ("extra", Json.obj
                           [("type", Json.str "object"),
                            ("properties", Json.obj
                              [("name", Json.obj [("type", Json.str "string")]),
                               ("version", Json.obj [("type", Json.str "string")])])]),
                         ("maxAmountRequired", Json.obj [("type", Json.str "string"), ("description", Json.str "Maximum amount required")]),
                         ("maxTimeoutSeconds", Json.obj [("type", Json.str "number"), ("description", Json.str "Maximum timeout in seconds")]),
                         ("mimeType", Json.obj [("type", Json.str "string"), ("description", Json.str "MIME type")]),
                         ("network", Json.obj [("type", Json.str "string"), ("description", Json.str "Network identifier")]),
                         ("payTo", Json.obj [("type", Json.str "string"), ("description", Json.str "Payment recipient address")]),
                         ("resource", Json.obj [("type", Json.str "string"), ("description", Json.str "Resource URL")]),
                         ("scheme", Json.obj [("type", Json.str "string"), ("description", Json.str "Payment scheme")])]),
                      ("required", Json.arr [Json.str "asset", Json.str "network", Json.str "payTo", Json.str "resource"])])]),
                ("error", Json.obj [("type", Json.str "string"), ("description", Json.str "Error message")]),
                ("x402Version", Json.obj [("type", Json.str "number"), ("description", Json.str "X402 protocol version")])]),
             ("required", Json.arr [Json.str "accepts", Json.str "x402Version"])])]),
       ("required", Json.arr [Json.str "chain", Json.str "x402_payload"])]⟩]

/-- The six tool names the dispatcher's if/elif chain recognizes, in
registration order. -/
def registeredNames : List String :=
  ["balance", "payment_methods", "billing_info", "pay_offer",
   "payment_info", "create_x402_payment_header"]

/-- The top-level argument keys the dispatcher extracts for each tool
(the `arguments[...]` accesses in `call_tool`, in source order). -/
def requiredKeys (name : String) : List String :=
  if name = "pay_offer" then ["offer_id", "l402_offer"]
  else if name = "payment_info" then ["pid"]
  else if name = "create_x402_payment_header" then ["chain", "x402_payload"]
  else []

/-- The output item produced for one backend outcome: the success rendering of
the normalized pair on `ok`, the error envelope on a raised exception. -/
def renderOutcome (outcome : Except String RawResponse) (name : String)
    (arguments : Arguments) : List TextContent :=
  match outcome with
  | Except.ok r => [textContent (dumpJson 0 (resultJson (handle_response r)))]
  | Except.error e => [textContent (dumpJson 0 (errorEnvelope e name arguments))]

/-- Field lookup in a JSON object (used to inspect declared schemas). -/
def jGet (j : Json) (k : String) : Option Json :=
  match j with
  | Json.obj fs => List.lookup k fs
  | _ => none

/-- A fixed healthy backend response used in concrete witnesses. -/
def okResponse : RawResponse :=
  ⟨200, some (Json.obj [("status", Json.str "ok")]), ""⟩

/-- A backend whose every operation succeeds with `okResponse`. -/
def sampleBackend : Backend :=
  ⟨Except.ok okResponse, Except.ok okResponse, Except.ok okResponse,
   fun _ _ => Except.ok okResponse, fun _ => Except.ok okResponse,
   fun _ _ => Except.ok okResponse⟩

/-- A backend whose every operation raises an exception with message "boom". -/
def failingBackend : Backend :=
  ⟨Except.error "boom", Except.error "boom", Except.error "boom",
   fun _ _ => Except.error "boom", fun _ => Except.error "boom",
   fun _ _ => Except.error "boom"⟩


/-- A sample argument mapping carrying values for every extracted key, used in
concrete witnesses. -/
def witnessArgs : Arguments :=
  [("offer_id", Json.str "offer-1"), ("l402_offer", Json.obj []),
   ("pid", Json.str "abc"), ("chain", Json.str "base"), ("x402_payload", Json.obj [])]

/-- Arguments for `create_x402_payment_header` that violate its declared
inputSchema: the chain value "ethereum" is outside the declared enum and the
payload object lacks the declared required fields `accepts`/`x402Version`. -/
def invalidX402Args : Arguments :=
  [("chain", Json.str "ethereum"), ("x402_payload", Json.obj [])]

theorem route_balance (b : Backend) (args : Arguments) :
    route b "balance" args =
      (Except.map handle_response b.balance, [BackendCall.balance]) := rfl

theorem route_payment_methods (b : Backend) (args : Arguments) :
    route b "payment_methods" args =
      (Except.map handle_response b.payment_methods, [BackendCall.payment_methods]) := rfl

theorem route_billing_info (b : Backend) (args : Arguments) :
    route b "billing_info" args =
      (Except.map handle_response b.billing_info, [BackendCall.billing_info]) := rfl

theorem route_pay_offer (b : Backend) (args : Arguments) :
    route b "pay_offer" args =
      match getArg args "offer_id" with
      | none => (Except.error (keyErrorMsg "offer_id"), [])
      | some offer_id =>
        match getArg args "l402_offer" with
        | none => (Except.error (keyErrorMsg "l402_offer"), [])
        | some l402_offer =>
          (Except.map handle_response (b.pay_offer offer_id l402_offer),
           [BackendCall.pay_offer offer_id l402_offer]) := rfl

theorem route_payment_info (b : Backend) (args : Arguments) :
    route b "payment_info" args =
      match getArg args "pid" with
      | none => (Except.error (keyErrorMsg "pid"), [])
      | some pid =>
        (Except.map handle_response (b.payment_info pid),
         [BackendCall.payment_info pid]) := rfl

theorem route_x402 (b : Backend) (args : Arguments) :
    route b "create_x402_payment_header" args =
      match getArg args "chain" with
      | none => (Except.error (keyErrorMsg "chain"), [])
      | some chain =>
        match getArg args "x402_payload" with
        | none => (Except.error (keyErrorMsg "x402_payload"), [])
        | some x402_payload =>
          (Except.map handle_response (b.pay_x402_offer x402_payload chain),
           [BackendCall.pay_x402_offer x402_payload chain]) := rfl

theorem route_unknown (b : Backend) (name : String) (args : Arguments)
    (h : name ∉ registeredNames) :
    route b name args = (Except.error ("Unknown tool: " ++ name), []) := by
  simp only [registeredNames, List.mem_cons, List.not_mem_nil, or_false, not_or] at h
  obtain ⟨h1, h2, h3, h4, h5, h6⟩ := h
  simp only [route, if_neg h1, if_neg h2, if_neg h3, if_neg h4, if_neg h5, if_neg h6]

theorem call_tool_of_route_ok (b : Backend) (name : String) (args : Arguments)
    (result : Int × Payload) (calls : List BackendCall)
    (h : route b name args = (Except.ok result, calls)) :
    call_tool b name args =
      ([textContent (dumpJson 0 (resultJson result))], calls) := by
  unfold call_tool
  rw [h]

theorem call_tool_of_route_error (b : Backend) (name : String) (args : Arguments)
    (e : String) (calls : List BackendCall)
    (h : route b name args = (Except.error e, calls)) :
    call_tool b name args =
      ([textContent (dumpJson 0 (errorEnvelope e name args))], calls) := by
  unfold call_tool
  rw [h]

theorem call_tool_renders (b : Backend) (name : String) (args : Arguments)
    (op : Except String RawResponse) (calls : List BackendCall)
    (h : route b name args = (Except.map handle_response op, calls)) :
    call_tool b name args = (renderOutcome op name args, calls) := by
  cases op with
  | ok r =>
      unfold call_tool
      rw [h]
      rfl
  | error e =>
      unfold call_tool
      rw [h]
      rfl

theorem call_tool_snd (b : Backend) (name : String) (args : Arguments) :
    (call_tool b name args).snd = (route b name args).snd := by
  unfold call_tool
  rcases hr : route b name args with ⟨res, calls⟩
  cases res <;> rfl


/-- Claim C1: for every tool name and every argument mapping the dispatcher
returns an output envelope (a single text item) and never lets an exception
escape its boundary: any failure during lookup, argument extraction, or the
backend call is caught and converted into the error envelope
\x7berror: message, tool: name, arguments: arguments\x7d. -/
theorem call_tool_error_boundary (b : Backend) (name : String) (args : Arguments) :
    (∃ s, (call_tool b name args).fst = [textContent s]) ∧
    ∀ e, (route b name args).fst = Except.error e →
      (call_tool b name args).fst =
        [textContent (dumpJson 0 (errorEnvelope e name args))] := by
  unfold call_tool
  rcases hr : route b name args with ⟨res, calls⟩
  cases res with
  | ok result =>
      refine ⟨⟨dumpJson 0 (resultJson result), rfl⟩, ?_⟩
      intro e he
      simp at he
  | error e0 =>
      refine ⟨⟨dumpJson 0 (errorEnvelope e0 name args), rfl⟩, ?_⟩
      intro e he
      simp at he
      subst he
      rfl

/-- Witness for C1: invoking `balance` against a backend that raises "boom"
yields exactly the error envelope for "boom". -/
theorem call_tool_error_boundary_witness :
    (call_tool failingBackend "balance" []).fst =
      [textContent (dumpJson 0 (errorEnvelope "boom" "balance" []))] :=
  (call_tool_error_boundary failingBackend "balance" []).2 "boom" rfl

/-- Claim C2: `list_tools` always returns the same ordered sequence of exactly
six tool descriptors — balance, payment_methods, billing_info, pay_offer,
payment_info, create_x402_payment_header, in that order — with exactly one
descriptor per name (the six names are pairwise distinct) and a non-empty
description on each.  The registry is a pure constant, so it has no side
effects and never fails. -/
theorem list_tools_catalog :
    list_tools.map Tool.name =
      ["balance", "payment_methods", "billing_info", "pay_offer",
       "payment_info", "create_x402_payment_header"] ∧
    (list_tools.map Tool.name).Nodup ∧
    ∀ t ∈ list_tools, t.description ≠ "" := by
  refine ⟨rfl, by decide, by decide⟩

/-- Claim C3: the response normalizer returns `(status, parsed)` when the body
parses as JSON and `(status, raw text)` when parsing fails; being a total
function it never raises.  In particular a JSON body `\x7b"balance": 100\x7d`
with status 200 yields `(200, \x7b"balance": 100\x7d)` and a non-JSON body
"not json" with status 500 yields `(500, "not json")`. -/
theorem handle_response_normalizes :
    (∀ r : RawResponse,
      handle_response r =
        match r.json_body with
        | some j => (r.status_code, Payload.json j)
        | none => (r.status_code, Payload.text r.text)) ∧
    handle_response
        ⟨200, some (Json.obj [("balance", Json.num 100)]), "\x7b\"balance\": 100\x7d"⟩ =
      (200, Payload.json (Json.obj [("balance", Json.num 100)])) ∧
    handle_response ⟨500, none, "not json"⟩ = (500, Payload.text "not json") :=
  ⟨fun _ => rfl, rfl, rfl⟩

/-- Claim C4: for every argument mapping lacking a required key of the invoked
tool, the dispatcher returns an error envelope whose arguments field is the
exact input mapping and whose tool field is the invoked tool name, without
calling the backend. -/
theorem missing_argument_envelope (b : Backend) (name : String) (args : Arguments)
    (h : ∃ k ∈ requiredKeys name, getArg args k = none) :
    ∃ e, call_tool b name args =
      ([textContent (dumpJson 0 (errorEnvelope e name args))], []) := by
  obtain ⟨k, hk, hnone⟩ := h
  by_cases h1 : name = "pay_offer"
  · subst h1
    rw [show requiredKeys "pay_offer" = ["offer_id", "l402_offer"] from rfl] at hk
    rcases ho : getArg args "offer_id" with _ | v
    · exact ⟨keyErrorMsg "offer_id",
        call_tool_of_route_error _ _ _ _ _ (by rw [route_pay_offer, ho])⟩
    · rcases hl : getArg args "l402_offer" with _ | w
      · exact ⟨keyErrorMsg "l402_offer",
          call_tool_of_route_error _ _ _ _ _ (by rw [route_pay_offer, ho, hl])⟩
      · exfalso
        simp only [List.mem_cons, List.not_mem_nil, or_false] at hk
        rcases hk with rfl | rfl
        · rw [ho] at hnone; exact Option.noConfusion hnone
        · rw [hl] at hnone; exact Option.noConfusion hnone
  · by_cases h2 : name = "payment_info"
    · subst h2
      rw [show requiredKeys "payment_info" = ["pid"] from rfl] at hk
      simp only [List.mem_cons, List.not_mem_nil, or_false] at hk
      subst hk
      rcases hp : getArg args "pid" with _ | v
      · exact ⟨keyErrorMsg "pid",
          call_tool_of_route_error _ _ _ _ _ (by rw [route_payment_info, hp])⟩
      · rw [hp] at hnone; exact Option.noConfusion hnone
    · by_cases h3 : name = "create_x402_payment_header"
      · subst h3
        rw [show requiredKeys "create_x402_payment_header" = ["chain", "x402_payload"]
            from rfl] at hk
        rcases hc : getArg args "chain" with _ | c
        · exact ⟨keyErrorMsg "chain",
            call_tool_of_route_error _ _ _ _ _ (by rw [route_x402, hc])⟩
        · rcases hx : getArg args "x402_payload" with _ | p
          · exact ⟨keyErrorMsg "x402_payload",
              call_tool_of_route_error _ _ _ _ _ (by rw [route_x402, hc, hx])⟩
          · exfalso
            simp only [List.mem_cons, List.not_mem_nil, or_false] at hk
            rcases hk with rfl | rfl
            · rw [hc] at hnone; exact Option.noConfusion hnone
            · rw [hx] at hnone; exact Option.noConfusion hnone
      · exfalso
        have hempty : requiredKeys name = [] := by
          simp only [requiredKeys, if_neg h1, if_neg h2, if_neg h3]
        rw [hempty] at hk
        exact List.not_mem_nil k hk

/-- Witness for C4: invoking `pay_offer` with empty arguments yields an error
envelope echoing the empty mapping and the tool name. -/
theorem missing_argument_envelope_witness :
    ∃ e, call_tool sampleBackend "pay_offer" [] =
      ([textContent (dumpJson 0 (errorEnvelope e "pay_offer" []))], []) :=
  missing_argument_envelope sampleBackend "pay_offer" []
    ⟨"offer_id", by decide, rfl⟩

/-- Claim C5: for every tool name outside the six registered names and every
argument mapping, the dispatcher returns the unknown-tool error envelope with
the name and the arguments echoed verbatim, and invokes no backend operation
(empty call trace). -/
theorem unknown_tool_envelope (b : Backend) (name : String) (args : Arguments)
    (h : name ∉ registeredNames) :
    call_tool b name args =
      ([textContent (dumpJson 0
          (errorEnvelope ("Unknown tool: " ++ name) name args))], []) :=
  call_tool_of_route_error _ _ _ _ _ (route_unknown b name args h)

/-- Witness for C5: invoking the unregistered name "frobnicate". -/
theorem unknown_tool_envelope_witness :
    call_tool sampleBackend "frobnicate" [("x", Json.num 1)] =
      ([textContent (dumpJson 0
          (errorEnvelope ("Unknown tool: " ++ "frobnicate") "frobnicate"
            [("x", Json.num 1)]))], []) :=
  unknown_tool_envelope sampleBackend "frobnicate" [("x", Json.num 1)] (by decide)

/-- Claim C6: the dispatcher routes each tool name to exactly its backend
operation with the stated argument order: balance/payment_methods/billing_info
with no arguments, pay_offer with (offer_id, l402_offer), payment_info with
(pid), and create_x402_payment_header to the backend X402-pay operation with
the x402_payload argument passed before the chain argument; the output is the
rendering of exactly that operation's outcome. -/
theorem dispatch_routing (b : Backend) (args : Arguments) :
    call_tool b "balance" args =
      (renderOutcome b.balance "balance" args, [BackendCall.balance]) ∧
    call_tool b "payment_methods" args =
      (renderOutcome b.payment_methods "payment_methods" args,
       [BackendCall.payment_methods]) ∧
    call_tool b "billing_info" args =
      (renderOutcome b.billing_info "billing_info" args, [BackendCall.billing_info]) ∧
    (∀ v w, getArg args "offer_id" = some v → getArg args "l402_offer" = some w →
      call_tool b "pay_offer" args =
        (renderOutcome (b.pay_offer v w) "pay_offer" args,
         [BackendCall.pay_offer v w])) ∧
    (∀ v, getArg args "pid" = some v →
      call_tool b "payment_info" args =
        (renderOutcome (b.payment_info v) "payment_info" args,
         [BackendCall.payment_info v])) ∧
    (∀ c p, getArg args "chain" = some c → getArg args "x402_payload" = some p →
      call_tool b "create_x402_payment_header" args =
        (renderOutcome (b.pay_x402_offer p c) "create_x402_payment_header" args,
         [BackendCall.pay_x402_offer p c])) := by
  refine ⟨?_, ?_, ?_, ?_, ?_, ?_⟩
  · exact call_tool_renders b "balance" args b.balance [BackendCall.balance]
      (route_balance b args)
  · exact call_tool_renders b "payment_methods" args b.payment_methods
      [BackendCall.payment_methods] (route_payment_methods b args)
  · exact call_tool_renders b "billing_info" args b.billing_info
      [BackendCall.billing_info] (route_billing_info b args)
  · intro v w hv hw
    exact call_tool_renders b "pay_offer" args (b.pay_offer v w)
      [BackendCall.pay_offer v w] (by rw [route_pay_offer, hv, hw])
  · intro v hv
    exact call_tool_renders b "payment_info" args (b.payment_info v)
      [BackendCall.payment_info v] (by rw [route_payment_info, hv])
  · intro c p hc hp
    exact call_tool_renders b "create_x402_payment_header" args
      (b.pay_x402_offer p c) [BackendCall.pay_x402_offer p c]
      (by rw [route_x402, hc, hp])

/-- Witness for C6: concrete routing of the three argument-taking tools,
showing the extracted values and their order in the backend call. -/
theorem dispatch_routing_witness :
    (call_tool sampleBackend "pay_offer" witnessArgs).snd =
      [BackendCall.pay_offer (Json.str "offer-1") (Json.obj [])] ∧
    (call_tool sampleBackend "payment_info" witnessArgs).snd =
      [BackendCall.payment_info (Json.str "abc")] ∧
    (call_tool sampleBackend "create_x402_payment_header" witnessArgs).snd =
      [BackendCall.pay_x402_offer (Json.obj []) (Json.str "base")] := by
  have h := dispatch_routing sampleBackend witnessArgs
  refine ⟨?_, ?_, ?_⟩
  · rw [h.2.2.2.1 (Json.str "offer-1") (Json.obj []) rfl rfl]
  · rw [h.2.2.2.2.1 (Json.str "abc") rfl]
  · rw [h.2.2.2.2.2 (Json.str "base") (Json.obj []) rfl rfl]

/-- Claim C7: on a successful invocation the dispatcher serializes the
normalized (status, payload) pair as the success envelope's single text
content, rendered as JSON with 2-space indentation (the Python tuple renders
as a JSON array); the concrete conjunct exhibits the exact rendering.  In the
embedding every payload is a JSON value (all values `response.json()` or
`response.text` can produce are serializable), under which `default=str`
stringification is never triggered, so serialization cannot raise. -/
theorem success_serialization :
    (∀ (b : Backend) (name : String) (args : Arguments) (result : Int × Payload)
        (calls : List BackendCall),
      route b name args = (Except.ok result, calls) →
      (call_tool b name args).fst =
        [textContent (dumpJson 0 (resultJson result))]) ∧
    dumpJson 0 (resultJson (200, Payload.json (Json.obj [("balance", Json.num 100)]))) =
      "[\n  200,\n  \x7b\n    \"balance\": 100\n  \x7d\n]" := by
  constructor
  · intro b name args result calls h
    rw [call_tool_of_route_ok b name args result calls h]
  · rfl

/-- Witness for C7: a successful `balance` call against the sample backend
produces exactly the serialized normalized pair. -/
theorem success_serialization_witness :
    (call_tool sampleBackend "balance" []).fst =
      [textContent (dumpJson 0 (resultJson
        (200, Payload.json (Json.obj [("status", Json.str "ok")]))))] :=
  success_serialization.1 sampleBackend "balance" []
    (200, Payload.json (Json.obj [("status", Json.str "ok")]))
    [BackendCall.balance] rfl

/-- Claim C8: every invocation of the dispatcher, success or failure, produces
exactly one output envelope: a list with exactly one text content item. -/
theorem single_output_envelope (b : Backend) (name : String) (args : Arguments) :
    (call_tool b name args).fst.length = 1 := by
  unfold call_tool
  rcases hr : route b name args with ⟨res, calls⟩
  cases res <;> rfl

/-- Counterexample to claim C9 (arguments validated against the full
inputSchema before dispatch): the declared schema for
`create_x402_payment_header` restricts `chain` to the enum
["base-sepolia", "base"], yet an invocation with `chain = "ethereum"` (and an
`x402_payload` lacking every declared required nested field) is forwarded to
the backend X402-pay operation and yields a success envelope — it is not
rejected with an error envelope. -/
theorem schema_validation_counterexample :
    (list_tools.filter (fun t => t.name == "create_x402_payment_header")).map
        (fun t => (jGet t.inputSchema "properties").bind
          (fun ps => (jGet ps "chain").bind (fun cs => jGet cs "enum"))) =
      [some (Json.arr [Json.str "base-sepolia", Json.str "base"])] ∧
    Json.str "ethereum" ≠ Json.str "base-sepolia" ∧
    Json.str "ethereum" ≠ Json.str "base" ∧
    (call_tool sampleBackend "create_x402_payment_header" invalidX402Args).snd =
      [BackendCall.pay_x402_offer (Json.obj []) (Json.str "ethereum")] ∧
    (call_tool sampleBackend "create_x402_payment_header" invalidX402Args).fst =
      [textContent (dumpJson 0 (resultJson
        (200, Payload.json (Json.obj [("status", Json.str "ok")]))))] := by
  refine ⟨rfl, ?_, ?_, rfl, rfl⟩
  · intro h
    injection h with h2
    exact absurd h2 (by decide)
  · intro h
    injection h with h2
    exact absurd h2 (by decide)

/-- Claim C9 as amended: the dispatcher performs no schema validation; it only
extracts the required top-level keys by exact name.  Whenever the invoked tool
is registered and every extracted key is present, exactly one backend call is
issued — the supplied values are forwarded regardless of whether they satisfy
the declared inputSchema. -/
theorem no_schema_validation_forwarding (b : Backend) (name : String)
    (args : Arguments) (hn : name ∈ registeredNames)
    (h : ∀ k ∈ requiredKeys name, (getArg args k).isSome = true) :
    (call_tool b name args).snd.length = 1 := by
  rw [call_tool_snd]
  simp only [registeredNames, List.mem_cons, List.not_mem_nil, or_false] at hn
  rcases hn with rfl | rfl | rfl | rfl | rfl | rfl
  · rw [route_balance]; rfl
  · rw [route_payment_methods]; rfl
  · rw [route_billing_info]; rfl
  · rcases ho : getArg args "offer_id" with _ | v
    · have hs := h "offer_id" (by decide)
      rw [ho] at hs
      exact absurd hs (by decide)
    · rcases hl : getArg args "l402_offer" with _ | w
      · have hs := h "l402_offer" (by decide)
        rw [hl] at hs
        exact absurd hs (by decide)
      · rw [route_pay_offer, ho, hl]; rfl
  · rcases hp : getArg args "pid" with _ | v
    · have hs := h "pid" (by decide)
      rw [hp] at hs
      exact absurd hs (by decide)
    · rw [route_payment_info, hp]; rfl
  · rcases hc : getArg args "chain" with _ | c
    · have hs := h "chain" (by decide)
      rw [hc] at hs
      exact absurd hs (by decide)
    · rcases hx : getArg args "x402_payload" with _ | p
      · have hs := h "x402_payload" (by decide)
        rw [hx] at hs
        exact absurd hs (by decide)
      · rw [route_x402, hc, hx]; rfl

/-- Witness for the amended C9: the schema-violating `invalidX402Args` is still
forwarded — exactly one backend call is issued. -/
theorem no_schema_validation_forwarding_witness :
    (call_tool sampleBackend "create_x402_payment_header" invalidX402Args).snd.length = 1 :=
  no_schema_validation_forwarding sampleBackend "create_x402_payment_header"
    invalidX402Args (by decide) (by decide)

/-- Claim C10: the dispatcher's behaviour depends only on the tool name and
the values of that tool's extracted required keys.  Two invocations agreeing
on those keys (for the three no-argument tools: any two argument mappings at
all) produce the same routing outcome and the same backend call trace —
extra or unknown keys never cause a failure — and on success the full output
is identical, so extra keys can reappear only in the echoed arguments of an
error envelope. -/
theorem dispatch_depends_on_required_keys (b : Backend) (name : String)
    (args1 args2 : Arguments)
    (h : ∀ k ∈ requiredKeys name, getArg args1 k = getArg args2 k) :
    route b name args1 = route b name args2 ∧
    (call_tool b name args1).snd = (call_tool b name args2).snd ∧
    ∀ result calls, route b name args1 = (Except.ok result, calls) →
      (call_tool b name args1).fst = (call_tool b name args2).fst := by
  have routeEq : route b name args1 = route b name args2 := by
    by_cases h1 : name = "balance"
    · subst h1; rw [route_balance, route_balance]
    · by_cases h2 : name = "payment_methods"
      · subst h2; rw [route_payment_methods, route_payment_methods]
      · by_cases h3 : name = "billing_info"
        · subst h3; rw [route_billing_info, route_billing_info]
        · by_cases h4 : name = "pay_offer"
          · subst h4
            have ho := h "offer_id" (by decide)
            have hl := h "l402_offer" (by decide)
            rw [route_pay_offer, route_pay_offer, ho, hl]
          · by_cases h5 : name = "payment_info"
            · subst h5
              have hp := h "pid" (by decide)
              rw [route_payment_info, route_payment_info, hp]
            · by_cases h6 : name = "create_x402_payment_header"
              · subst h6
                have hc := h "chain" (by decide)
                have hx := h "x402_payload" (by decide)
                rw [route_x402, route_x402, hc, hx]
              · have hmem : name ∉ registeredNames := by
                  simp only [registeredNames, List.mem_cons, List.not_mem_nil,
                    or_false, not_or]
                  exact ⟨h1, h2, h3, h4, h5, h6⟩
                rw [route_unknown b name args1 hmem, route_unknown b name args2 hmem]
  refine ⟨routeEq, ?_, ?_⟩
  · rw [call_tool_snd, call_tool_snd, routeEq]
  · intro result calls hok
    have hok2 : route b name args2 = (Except.ok result, calls) := by
      rw [← routeEq]; exact hok
    rw [call_tool_of_route_ok b name args1 result calls hok,
        call_tool_of_route_ok b name args2 result calls hok2]

/-- Witness for C10: adding an extra key to a `payment_info` invocation leaves
the routing outcome and the success output unchanged. -/
theorem dispatch_depends_on_required_keys_witness :
    route sampleBackend "payment_info" [("pid", Json.str "abc")] =
      route sampleBackend "payment_info"
        [("pid", Json.str "abc"), ("extra", Json.num 1)] ∧
    (call_tool sampleBackend "payment_info" [("pid", Json.str "abc")]).fst =
      (call_tool sampleBackend "payment_info"
        [("pid", Json.str "abc"), ("extra", Json.num 1)]).fst := by
  have h := dispatch_depends_on_required_keys sampleBackend "payment_info"
    [("pid", Json.str "abc")] [("pid", Json.str "abc"), ("extra", Json.num 1)]
    (by intro k hk
        rw [show requiredKeys "payment_info" = ["pid"] from rfl] at hk
        simp only [List.mem_cons, List.not_mem_nil, or_false] at hk
        subst hk
        rfl)
  exact ⟨h.1, h.2.2 (200, Payload.json (Json.obj [("status", Json.str "ok")]))
    [BackendCall.payment_info (Json.str "abc")] rfl⟩

end FewsatsMCP

